import Mathlib

/-!
Shallow embedding of the Citallios slab verification pipeline:
src/moteur.py (envelope reducer, model builder, verification orchestrator)
and src/Citallios.py / src/JM_Calculs.py (parameter normalizer, batch
pipeline).

Conventions of the embedding:
* Python numbers (int and float alike) are modelled as exact rationals.
* Python values flowing through the input and result dictionaries are
  modelled by `PyVal`; dictionaries are association lists in insertion
  order with unique keys.
* Python exceptions are modelled by `Except PyErr`.
* The external fiber analysis engine (packages section_flex and materia)
  is an external collaborator: its constructors are modelled as records of
  the arguments the core passes to them, and the solving engine is
  modelled, from the spec, as a record of pure functions (`Solver`).
-/

attribute [local semireducible] Rat.add Rat.mul Rat.inv Rat.sub

set_option synthInstance.maxSize 1000

deriving instance DecidableEq for Except

/-- Equilibrium descriptor triple produced by the external solver
(the plane-of-deformation objects read by `check_pod_equilibre`). -/
structure Pod where
  epsilon_0 : ℚ
  omega_y : ℚ
  omega_z : ℚ
deriving DecidableEq, Repr

/-- A Python value as it appears in the input and result dictionaries:
`None`, a number (int or float, modelled as an exact rational), a string,
or a solver state object. -/
inductive PyVal where
  | pyNone : PyVal
  | pyNum : ℚ → PyVal
  | pyStr : String → PyVal
  | pyPod : Pod → PyVal
deriving DecidableEq, Repr

open PyVal

/-- The Python exceptions the embedded code can raise. -/
inductive PyErr where
  | keyError : String → PyErr
  | typeError : PyErr
  | zeroDivisionError : PyErr
  | nameError : PyErr
deriving DecidableEq, Repr

/-- A Python dict with string keys, in insertion order. -/
abbrev Dict := List (String × PyVal)

/-- First binding of key `k` (Python dict keys are unique, so this is
exactly dict lookup). -/
def alookup {α : Type} : List (String × α) → String → Option α
  | [], _ => none
  | (k₀, v₀) :: rest, k => if k₀ = k then some v₀ else alookup rest k

/-- Python `d[k]`: KeyError when the key is missing. -/
def dictGet (d : Dict) (k : String) : Except PyErr PyVal :=
  match alookup d k with
  | some v => Except.ok v
  | none => Except.error (PyErr.keyError k)

/-- Python `d.get(k)`: `None` when the key is missing. -/
def pyGet (d : Dict) (k : String) : PyVal :=
  match alookup d k with
  | some v => v
  | none => pyNone

/-- Python `d.get(k, dflt)`. -/
def pyGetD (d : Dict) (k : String) (dflt : PyVal) : PyVal :=
  match alookup d k with
  | some v => v
  | none => dflt

/-- Using a Python value as a number: succeeds on int/float values and
raises TypeError otherwise, as Python arithmetic and comparisons do. -/
def pyToQ : PyVal → Except PyErr ℚ
  | pyNum q => Except.ok q
  | _ => Except.error PyErr.typeError

/-- Python `str.lower()` (all keys and markers used here are ASCII). -/
def strLower (s : String) : String :=
  String.mk (s.toList.map Char.toLower)

/-- Whitespace for Python `str.strip()`: Unicode whitespace, which
includes the no-break space U+00A0. -/
def isPySpace (c : Char) : Bool :=
  c.isWhitespace || c = '\u00A0'

/-- Python `str.strip()`. -/
def pyStrip (s : String) : String :=
  String.mk (((s.toList.dropWhile isPySpace).reverse.dropWhile isPySpace).reverse)

/-- Replacement pass of Python `str.replace` over a character list:
leftmost, non-overlapping occurrences of `pat` replaced by `rep`.  The
fuel argument (instantiated with the length of the list) only serves
structural termination; one character is consumed per step. -/
def replaceCharsAux (pat rep : List Char) : Nat → List Char → List Char
  | 0, l => l
  | _ + 1, [] => []
  | fuel + 1, c :: rest =>
    if pat ≠ [] ∧ pat.isPrefixOf (c :: rest) then
      rep ++ replaceCharsAux pat rep fuel ((c :: rest).drop pat.length)
    else
      c :: replaceCharsAux pat rep fuel rest

/-- Python `s.replace(pat, rep)` for a non-empty pattern (every pattern
used by the sources is non-empty). -/
def strReplace (s pat rep : String) : String :=
  String.mk (replaceCharsAux pat.toList rep.toList s.toList.length s.toList)

/-- Numeric value of a digit string. -/
def digitsToNat (ds : List Char) : Nat :=
  ds.foldl (fun a c => 10 * a + (c.toNat - 48)) 0

/-- Exponent part of a Python float literal: optional sign, then digits. -/
def parseExpPart (cs : List Char) : Option ℚ :=
  let signNeg := cs.head? = some '-'
  let cs₁ := if cs.head? = some '-' ∨ cs.head? = some '+' then cs.drop 1 else cs
  let ds := cs₁.takeWhile Char.isDigit
  let rest := cs₁.dropWhile Char.isDigit
  if ds = [] ∨ rest ≠ [] then none
  else if signNeg then some (1 / (10 : ℚ) ^ digitsToNat ds)
  else some ((10 : ℚ) ^ digitsToNat ds)

/-- Unsigned part of the literal grammar accepted by Python `float(...)`:
a decimal mantissa (digits, with an optional point) and an optional
exponent.  The special values inf/nan and digit-group underscores are not
modelled; no caller can reach them ("nan" is intercepted earlier and the
data carries no such cells). -/
def parseUnsignedFloat (cs : List Char) : Option ℚ :=
  let ip := cs.takeWhile Char.isDigit
  let r₁ := cs.dropWhile Char.isDigit
  match r₁ with
  | [] => if ip = [] then none else some (digitsToNat ip : ℚ)
  | '.' :: r₂ =>
    let fp := r₂.takeWhile Char.isDigit
    let r₃ := r₂.dropWhile Char.isDigit
    if ip = [] ∧ fp = [] then none
    else
      let base : ℚ := (digitsToNat ip : ℚ) + (digitsToNat fp : ℚ) / (10 : ℚ) ^ fp.length
      match r₃ with
      | [] => some base
      | e :: r₄ =>
        if e = 'e' ∨ e = 'E' then (parseExpPart r₄).map (fun ex => base * ex) else none
  | e :: r₄ =>
    if (e = 'e' ∨ e = 'E') ∧ ip ≠ [] then
      (parseExpPart r₄).map (fun ex => (digitsToNat ip : ℚ) * ex)
    else none

/-- Python `float(s)`: optional surrounding whitespace, an optional sign
and the unsigned literal; `none` models the ValueError. -/
def pyFloat (s : String) : Option ℚ :=
  match (pyStrip s).toList with
  | '+' :: r => parseUnsignedFloat r
  | '-' :: r => (parseUnsignedFloat r).map Neg.neg
  | r => parseUnsignedFloat r

/-- Embeds `_to_number` from src/Citallios.py lines 135-151 (textually identical
in src/JM_Calculs.py lines 97-113): lenient numeric coercion of a raw
cell value. -/
def _to_number (v : PyVal) : PyVal :=
  match v with
  | pyNone => pyNone
  | pyNum q => pyNum q
  | pyPod p => pyPod p
  | pyStr t =>
    let s := pyStrip t
    if s = "" ∨ strLower s ∈ (["nan", "none", "null"] : List String) then pyNone
    else
      let s₁ := strReplace (strReplace (strReplace s " " "") "\u00A0" "") "," "."
      match pyFloat s₁ with
      | some q => pyNum q
      | none => pyStr t

/-- Embeds `default_id_extractor` from src/moteur.py lines 62-64: the integer
value of the trailing digit run of the key (the regex `(\d+)$`), if
there is one. -/
def default_id_extractor (k : String) : Option Nat :=
  let ds := (k.toList.reverse.takeWhile Char.isDigit).reverse
  if ds = [] then none else some (digitsToNat ds)

/-- Embeds `env_val` from src/moteur.py lines 67-70: coerce an optional envelope
extreme, `None` becoming the default. -/
def env_val (val : Option ℚ) (default : ℚ) : ℚ :=
  match val with
  | none => default
  | some v => v

/-- One solver state entry: the per-component record (stress, strain, ...). -/
abbrev FieldMap := List (String × ℚ)

/-- A per-component internal state map, keyed by component identifier. -/
abbrev StateMap := List (String × FieldMap)

/-- The dictionary returned by `envelope`. -/
structure EnvResult where
  count : Nat
  min : Option ℚ
  max : Option ℚ
  ids_min : List String
  ids_max : List String
deriving DecidableEq, Repr

/-- The filtered sub-dictionary built by the first loop of `envelope`
(src/moteur.py lines 85-99): key and field value of every surviving
entry, in map order. -/
def envelopeSub (d : StateMap) (start stop : Option Int) (field : String) :
    List (String × ℚ) :=
  d.filterMap (fun kv =>
    match alookup kv.2 field with
    | none => none
    | some x =>
      if start = none ∧ stop = none then some (kv.1, x)
      else
        match default_id_extractor kv.1 with
        | none => none
        | some n =>
          if ((match start with
               | none => true
               | some s => decide (s ≤ (n : Int))) &&
              (match stop with
               | none => true
               | some e => decide ((n : Int) ≤ e))) = true then
            some (kv.1, x)
          else none)

/-- Embeds `envelope` from src/moteur.py lines 73-114: min/max envelope of
`field` over the entries selected by the inclusive `[start, stop]`
identifier filter (`stop` renders the Python parameter `end`). -/
def envelope (d : StateMap) (start stop : Option Int) (field : String) : EnvResult :=
  match envelopeSub d start stop field with
  | [] => ⟨0, none, none, [], []⟩
  | kv :: rest =>
    let vmin := (rest.map Prod.snd).foldl Min.min kv.2
    let vmax := (rest.map Prod.snd).foldl Max.max kv.2
    ⟨(kv :: rest).length, some vmin, some vmax,
     ((kv :: rest).filter (fun p => decide (p.2 = vmin))).map Prod.fst,
     ((kv :: rest).filter (fun p => decide (p.2 = vmax))).map Prod.fst⟩

/-- Constructor-argument record of `materia.EC2Concrete` (external
collaborator; the embedding records the arguments the core passes). -/
structure EC2Concrete where
  fck : PyVal
  diagram_type : String
  gamma_c : Option ℚ
deriving DecidableEq, Repr

/-- Constructor-argument record of `materia.SteelRebar` (external). -/
structure SteelRebar where
  ductility_class : PyVal
  yield_strength_fyk : PyVal
  gamma_s : Option ℚ
  diagram_type : Option String
deriving DecidableEq, Repr

/-- Constructor-argument record of `materia.FibreReinforcedPolymer`
(external). -/
structure FibreReinforcedPolymer where
  modulus_elasticity_ef : PyVal
  sigma_f_sls : Option PyVal
  sigma_f_uls : Option PyVal
deriving DecidableEq, Repr

/-- Constructor-argument record of `section_flex.geometry.point.Point`. -/
structure Point where
  x : ℚ
  y : ℚ
deriving DecidableEq, Repr

/-- A polygon is its list of vertices. -/
abbrev Polygon := List Point

/-- Constructor-argument record of `section_flex.section.region.Region`. -/
structure Region where
  tag : ℚ
  polygons : List Polygon
  material : EC2Concrete
deriving DecidableEq, Repr

/-- Constructor-argument record of `section_flex.section.rebars.Rebars`
(`Rebars(0, area, material, points, first_id)`). -/
structure Rebars where
  tag : ℚ
  area : PyVal
  material : SteelRebar
  points : List Point
  first_id : ℚ
deriving DecidableEq, Repr

/-- Constructor-argument record of
`section_flex.section.frp_strips.FRPStrips`. -/
structure FRPStrips where
  tag : ℚ
  area : PyVal
  material : FibreReinforcedPolymer
  points : List Point
  first_id : ℚ
deriving DecidableEq, Repr

/-- Constructor-argument record of
`section_flex.section.concrete_section.ConcreteSection`. -/
structure ConcreteSection where
  regions : List Region
  rebars : List Rebars
  frp_strips : List FRPStrips
  fibre_size_y : ℚ
  fibre_size_z : ℚ
deriving DecidableEq, Repr

/-- Embeds `unpack_materiaux` from src/moteur.py lines 26-34: plain dict
indexing, a KeyError on any missing field. -/
def unpack_materiaux (materiaux : Dict) :
    Except PyErr (PyVal × PyVal × PyVal × PyVal × PyVal × PyVal × PyVal) := do
  let fck ← dictGet materiaux "fck"
  let class_acier ← dictGet materiaux "class_acier"
  let fyk ← dictGet materiaux "fyk"
  let Ef ← dictGet materiaux "Ef"
  let sigma_fs ← dictGet materiaux "sigma_fs"
  let sigma_fu ← dictGet materiaux "sigma_fu"
  let carbone_feu ← dictGet materiaux "carbone_feu"
  return (fck, class_acier, fyk, Ef, sigma_fs, sigma_fu, carbone_feu)

/-- Embeds `unpack_geometry` from src/moteur.py lines 37-43. -/
def unpack_geometry (geometrie : Dict) :
    Except PyErr (PyVal × PyVal × PyVal × PyVal × PyVal) := do
  let h_dalle ← dictGet geometrie "h_dalle"
  let b_dalle ← dictGet geometrie "b_dalle"
  let As ← dictGet geometrie "As"
  let dprim_s ← dictGet geometrie "dprim_s"
  let ns ← dictGet geometrie "ns"
  return (h_dalle, b_dalle, As, dprim_s, ns)

/-- Embeds `unpack_renforts` from src/moteur.py lines 45-52. -/
def unpack_renforts (renforts : Dict) :
    Except PyErr (PyVal × PyVal × PyVal × PyVal × PyVal × PyVal) := do
  let Asr ← dictGet renforts "Asr"
  let dprim_sr ← dictGet renforts "dprim_sr"
  let nsr ← dictGet renforts "nsr"
  let Af ← dictGet renforts "Af"
  let dprim_f ← dictGet renforts "dprim_f"
  let nf ← dictGet renforts "nf"
  return (Asr, dprim_sr, nsr, Af, dprim_f, nf)

/-- Embeds `unpack_forces` from src/moteur.py lines 54-59. -/
def unpack_forces (efforts : Dict) :
    Except PyErr (PyVal × PyVal × PyVal × PyVal) := do
  let m_els_1 ← dictGet efforts "m_els_1"
  let m_els_2 ← dictGet efforts "m_els_2"
  let m_elu ← dictGet efforts "m_elu"
  let m_feu ← dictGet efforts "m_feu"
  return (m_els_1, m_els_2, m_elu, m_feu)

/-- Python `range(n)` on a number from the data: a TypeError unless the
value is integral (the normalizer coerces count fields to int); a
negative count gives an empty range. -/
def pyRange (q : ℚ) : Except PyErr (List Nat) :=
  if q.den = 1 then Except.ok (List.range q.num.toNat)
  else Except.error PyErr.typeError

/-- The material-construction block of `def_sections` (src/moteur.py
lines 130-156): one concrete, one steel and one FRP material per regime.
An unknown regime leaves the material variables unassigned, which is a
NameError at their first use. -/
def make_materials (comb : String)
    (fck class_acier fyk Ef sigma_fs sigma_fu carbone_feu : PyVal) :
    Except PyErr (EC2Concrete × SteelRebar × FibreReinforcedPolymer) :=
  if comb = "uls" then
    Except.ok (⟨fck, "uls_parabola", some (3 / 2)⟩,
               ⟨class_acier, fyk, some (23 / 20), none⟩,
               ⟨Ef, some sigma_fs, some sigma_fu⟩)
  else if comb = "sls" then
    Except.ok (⟨fck, "sls_cracked", none⟩,
               ⟨class_acier, fyk, none, some "sls"⟩,
               ⟨Ef, some sigma_fs, some sigma_fu⟩)
  else if comb = "fire" then do
    let cfq ← pyToQ carbone_feu
    let efq ← pyToQ Ef
    Except.ok (⟨fck, "uls_parabola", some 1⟩,
               ⟨class_acier, fyk, some 1, none⟩,
               ⟨pyNum (efq * max cfq (1 / 1000000000)), none, none⟩)
  else Except.error PyErr.nameError

/-- The slab-geometry and original-steel block of `def_sections`
(src/moteur.py lines 158-184): the rectangle polygon, the `ns` evenly
spaced original bars and the baseline section.  Also returns the region,
the original rebar group and the slab width, reused downstream. -/
def make_dalle (concrete : EC2Concrete) (acier : SteelRebar)
    (h_dalle b_dalle As dprim_s ns : PyVal) :
    Except PyErr (Region × Rebars × ConcreteSection × ℚ) := do
  let bq ← pyToQ b_dalle
  let hq ← pyToQ h_dalle
  let pt_00 : Point := ⟨-bq / 2, 0⟩
  let pt_01 : Point := ⟨bq / 2, 0⟩
  let pt_02 : Point := ⟨bq / 2, hq⟩
  let pt_03 : Point := ⟨-bq / 2, hq⟩
  let dalle_poly : Polygon := [pt_00, pt_01, pt_02, pt_03]
  let dalle_reg : Region := ⟨0, [dalle_poly], concrete⟩
  let ys ← pyToQ dprim_s
  let nsq ← pyToQ ns
  if nsq = 0 then Except.error PyErr.zeroDivisionError else do
  let es := bq / nsq
  let idx ← pyRange nsq
  let HA_pts : List Point := idx.map (fun i => ⟨-es * (nsq - 1) / 2 + i * es, ys⟩)
  let rebar_inf : Rebars := ⟨0, As, acier, HA_pts, 1⟩
  let dalle : ConcreteSection := ⟨[dalle_reg], [rebar_inf], [], bq / 2, 1 / 200⟩
  return (dalle_reg, rebar_inf, dalle, bq)

/-- The added-steel block of `def_sections` (src/moteur.py lines
186-197): the strengthened rebar list starts from the original group and
appends the added group (identifier band 101) when `Asr * nsr > 0`. -/
def make_rebars_renf (acier : SteelRebar) (rebar_inf : Rebars) (bq : ℚ)
    (Asr dprim_sr nsr : PyVal) : Except PyErr (List Rebars) := do
  let asrq ← pyToQ Asr
  let nsrq ← pyToQ nsr
  if asrq * nsrq > 0 then do
    let ysr ← pyToQ dprim_sr
    let esr := bq / nsrq
    let idx ← pyRange nsrq
    let Asr_pts : List Point := idx.map (fun i => ⟨-esr * (nsrq - 1) / 2 + i * esr, ysr⟩)
    return [rebar_inf, ⟨0, Asr, acier, Asr_pts, 101⟩]
  else
    return [rebar_inf]

/-- The added-FRP block of `def_sections` (src/moteur.py lines 199-211):
a real strip group when `Af * nf > 0`, otherwise the zero-area
single-point placeholder carrying a dummy material. -/
def make_frp_renf (renf_carbone : FibreReinforcedPolymer) (bq : ℚ)
    (Af dprim_f nf : PyVal) : Except PyErr FRPStrips := do
  let afq ← pyToQ Af
  let nfq ← pyToQ nf
  if afq * nfq > 0 then do
    let yf ← pyToQ dprim_f
    let ef := bq / nfq
    let idx ← pyRange nfq
    let FRP_pts : List Point := idx.map (fun i => ⟨-ef * (nfq - 1) / 2 + i * ef, yf⟩)
    return ⟨0, Af, renf_carbone, FRP_pts, 1⟩
  else
    return ⟨0, pyNum 0,
      ⟨pyNum (1 / 1000000000), some (pyNum 10000), some (pyNum 10000)⟩, [⟨0, 0⟩], 1⟩

/-- Embeds `def_sections` from src/moteur.py lines 118-221: build the baseline
and the strengthened section for one regime. -/
def def_sections (materiaux geometrie renforts : Dict) (comb_type : String) :
    Except PyErr (ConcreteSection × ConcreteSection) := do
  let comb := strLower comb_type
  let (fck, class_acier, fyk, Ef, sigma_fs, sigma_fu, carbone_feu) ←
    unpack_materiaux materiaux
  let (h_dalle, b_dalle, As, dprim_s, ns) ← unpack_geometry geometrie
  let (Asr, dprim_sr, nsr, Af, dprim_f, nf) ← unpack_renforts renforts
  let (concrete, acier, renf_carbone) ←
    make_materials comb fck class_acier fyk Ef sigma_fs sigma_fu carbone_feu
  let (dalle_reg, rebar_inf, dalle, bq) ←
    make_dalle concrete acier h_dalle b_dalle As dprim_s ns
  let rebars ← make_rebars_renf acier rebar_inf bq Asr dprim_sr nsr
  let FRP_inf ← make_frp_renf renf_carbone bq Af dprim_f nf
  let dalle_renf : ConcreteSection := ⟨[dalle_reg], rebars, [FRP_inf], bq / 2, 1 / 200⟩
  return (dalle, dalle_renf)

/-- Modelled from the spec: the external fiber analysis engine behind
the Solver Adapter boundary (package `section_flex`, not part of src/).
Per the contract it exposes a capacity-moment query and a curvature
equilibrium query returning per-component stress/strain maps, and it is
a pure function of its arguments (single-threaded, no shared state, and
it always terminates). -/
structure Solver where
  from_forces_to_curvature : ConcreteSection → ℚ → ℚ → ℚ → Pod
  concrete_internal_state : ConcreteSection → Pod → StateMap
  rebars_internal_state : ConcreteSection → Pod → StateMap
  frp_internal_state : ConcreteSection → Pod → StateMap
  Mrd_max : ConcreteSection → ℚ → ℚ

/-- A value read from an `envelope` field as it lands in a Python result
dict: `None` or the number. -/
def optPy (v : Option ℚ) : PyVal :=
  match v with
  | none => pyNone
  | some q => pyNum q

/-- Embeds `design_section` from src/moteur.py lines 343-419: run one regime
and return the result dict, keys in source order.  In the non-sls branch
the regime is necessarily "uls" or "fire", because `def_sections` has
already raised a NameError on any other regime string. -/
def design_section (solver : Solver) (materiaux geometrie renforts efforts : Dict)
    (comb_type : String) : Except PyErr Dict := do
  let comb := strLower comb_type
  let (section_1, section_2) ← def_sections materiaux geometrie renforts comb
  let ned : ℚ := 0
  let (m_els_1, m_els_2, m_elu, m_fire) ← unpack_forces efforts
  if comb = "sls" then do
    let m1q ← pyToQ m_els_1
    let m2q ← pyToQ m_els_2
    let pod_1 := solver.from_forces_to_curvature section_1 ned m1q 0
    let pod_2 := solver.from_forces_to_curvature section_2 ned m2q 0
    let concrete_state_1 := solver.concrete_internal_state section_1 pod_1
    let rebars_state_1 := solver.rebars_internal_state section_1 pod_1
    let sigma_c1 := (envelope concrete_state_1 none none "stress").max
    let sigma_s1 := (envelope rebars_state_1 (some 1) (some 99) "stress").min
    let concrete_state_2 := solver.concrete_internal_state section_2 pod_2
    let rebars_state_2 := solver.rebars_internal_state section_2 pod_2
    let frp_state_2 := solver.frp_internal_state section_2 pod_2
    let sigma_c2 := env_val (envelope concrete_state_2 none none "stress").max 0
    let sigma_s2 := env_val (envelope rebars_state_2 (some 1) (some 99) "stress").min 0
    let sigma_sr2 := env_val (envelope rebars_state_2 (some 101) (some 199) "stress").min 0
    let sigma_f2 := env_val (envelope frp_state_2 none none "stress").min 0
    return [("m1", m_els_1), ("m2", m_els_2),
            ("sigma_c1", optPy sigma_c1), ("sigma_c2", pyNum sigma_c2),
            ("sigma_s1", optPy sigma_s1), ("sigma_s2", pyNum sigma_s2),
            ("sigma_sr2", pyNum sigma_sr2), ("sigma_f2", pyNum sigma_f2),
            ("pod_1", pyPod pod_1), ("pod_2", pyPod pod_2)]
  else do
    let m_ed := if comb = "uls" then m_elu else m_fire
    let m_rd1 := solver.Mrd_max section_1 ned
    let m_rd2 := solver.Mrd_max section_2 ned
    let medq ← pyToQ m_ed
    let pod_uls := solver.from_forces_to_curvature section_2 ned medq 0
    let concrete_state_uls := solver.concrete_internal_state section_2 pod_uls
    let rebars_state_uls := solver.rebars_internal_state section_2 pod_uls
    let frp_state_uls := solver.frp_internal_state section_2 pod_uls
    let sigma_c := env_val (envelope concrete_state_uls none none "stress").max 0
    let sigma_s := env_val (envelope rebars_state_uls (some 1) (some 99) "stress").min 0
    let sigma_sr := env_val (envelope rebars_state_uls (some 101) (some 199) "stress").min 0
    let sigma_f := env_val (envelope frp_state_uls none none "stress").min 0
    return [("m_ed", m_ed), ("m_rd1", pyNum m_rd1), ("m_rd2", pyNum m_rd2),
            ("sigma_c", pyNum sigma_c), ("sigma_s", pyNum sigma_s),
            ("sigma_sr", pyNum sigma_sr), ("sigma_f", pyNum sigma_f),
            ("pod_uls", pyPod pod_uls)]

/-- Embeds `MATERIAUX_KEYS` from src/Citallios.py lines 46-48. -/
def MATERIAUX_KEYS : List String :=
  ["fck", "class_acier", "fyk", "Ef", "sigma_fs", "sigma_fu", "carbone_feu"]

/-- Embeds `GEOMETRIE_KEYS` from src/Citallios.py lines 49-51. -/
def GEOMETRIE_KEYS : List String := ["h_dalle", "b_dalle", "As", "dprim_s", "ns"]

/-- Embeds `RENFORTS_KEYS` from src/Citallios.py lines 52-54. -/
def RENFORTS_KEYS : List String := ["Asr", "dprim_sr", "nsr", "Af", "dprim_f", "nf"]

/-- Embeds `EFFORTS1_KEYS` from src/Citallios.py lines 55-57. -/
def EFFORTS1_KEYS : List String := ["m_els_1_1", "m_els_2_1", "m_elu_1", "m_feu_1"]

/-- Embeds `EFFORTS2_KEYS` from src/Citallios.py lines 58-60. -/
def EFFORTS2_KEYS : List String := ["m_els_1_2", "m_els_2_2", "m_elu_2", "m_feu_2"]

/-- Embeds `INT_KEYS` from src/Citallios.py line 63. -/
def INT_KEYS : List String := ["ns", "nsr", "nf"]

/-- A raw spreadsheet row: column name to cell value, in column order. -/
abbrev Row := List (String × PyVal)

/-- The structured per-row input produced by `_build_input_dict`. -/
structure RowDict where
  materiaux : Dict
  geometrie : Dict
  renforts : Dict
  efforts_1 : Dict
  efforts_2 : Dict
deriving DecidableEq, Repr

/-- Python `d[k] = v`: replace in place when the key exists, else append. -/
def dictSet : Dict → String → PyVal → Dict
  | [], k, v => [(k, v)]
  | (k₀, v₀) :: rest, k, v =>
    if k₀ = k then (k, v) :: rest else (k₀, v₀) :: dictSet rest k v

/-- The phase-1 effort-key rewriting of `_build_input_dict`
(src/Citallios.py lines 232-237). -/
def rewriteEffort1 (key : String) : String :=
  strReplace (strReplace (strReplace (strReplace key "_1_1" "_1") "_2_1" "_2")
    "_elu_1" "_elu") "_feu_1" "_feu"

/-- The phase-2 effort-key rewriting of `_build_input_dict`
(src/Citallios.py lines 241-246). -/
def rewriteEffort2 (key : String) : String :=
  strReplace (strReplace (strReplace (strReplace key "_1_2" "_1") "_2_2" "_2")
    "_elu_2" "_elu") "_feu_2" "_feu"

/-- One step of the column-routing loop of `_build_input_dict`
(src/Citallios.py lines 222-250). -/
def routeField (acc : Dict × Dict × Dict × Dict × Dict) (kv : String × PyVal) :
    Dict × Dict × Dict × Dict × Dict :=
  let (materiaux, geometrie, renforts, efforts1, efforts2) := acc
  let key := pyStrip kv.1
  let val := _to_number kv.2
  if key ∈ MATERIAUX_KEYS then
    (dictSet materiaux key val, geometrie, renforts, efforts1, efforts2)
  else if key ∈ GEOMETRIE_KEYS then
    (materiaux, dictSet geometrie key val, renforts, efforts1, efforts2)
  else if key ∈ RENFORTS_KEYS then
    (materiaux, geometrie, dictSet renforts key val, efforts1, efforts2)
  else if key ∈ EFFORTS1_KEYS then
    (materiaux, geometrie, renforts, dictSet efforts1 (rewriteEffort1 key) val, efforts2)
  else if key ∈ EFFORTS2_KEYS then
    (materiaux, geometrie, renforts, efforts1, dictSet efforts2 (rewriteEffort2 key) val)
  else acc

/-- Embeds `effort_order` from src/Citallios.py line 253. -/
def effort_order : List String := ["m_els_1", "m_els_2", "m_elu", "m_feu"]

/-- The `setdefault` pass plus the orderly rebuild
`{k: efforts[k] for k in effort_order}` (src/Citallios.py lines
253-260): the force dict, rebuilt in canonical order with zero
defaults.  Every key the routing loop can put in a force dict is already
canonical, so the rebuild drops nothing. -/
def canonEfforts (d : Dict) : Dict :=
  effort_order.map (fun k => (k, pyGetD d k (pyNum 0)))

/-- Python `int(float(v))` with the enclosing try/except of
`_build_input_dict`: truncation toward zero on numbers, a full float
parse then truncation on strings, anything that raises left unchanged. -/
def intCoerce (v : PyVal) : PyVal :=
  match v with
  | pyNum q => pyNum (Int.tdiv q.num (q.den : Int) : Int)
  | pyStr s =>
    match pyFloat s with
    | some q => pyNum (Int.tdiv q.num (q.den : Int) : Int)
    | none => pyStr s
  | v => v

/-- Embeds `_build_input_dict` from src/Citallios.py lines 200-284: route each
column into one of the five structured groups, default and order the two
force groups, and coerce the count fields to integers. -/
def _build_input_dict (row : Row) : RowDict :=
  let acc := row.foldl routeField ([], [], [], [], [])
  let (materiaux, geometrie, renforts, efforts1, efforts2) := acc
  let efforts1 := canonEfforts efforts1
  let efforts2 := canonEfforts efforts2
  let geometrie := geometrie.map (fun kv =>
    if kv.1 ∈ INT_KEYS ∧ kv.2 ≠ pyNone then (kv.1, intCoerce kv.2) else kv)
  let renforts := renforts.map (fun kv =>
    if kv.1 ∈ INT_KEYS ∧ kv.2 ≠ pyNone then (kv.1, intCoerce kv.2) else kv)
  ⟨materiaux, geometrie, renforts, efforts1, efforts2⟩

/-- Embeds `row_results` from src/Citallios.py lines 404-497: the result
columns of one normalized row for the requested combinations, read from
the `design_section` dicts with `.get`. -/
def row_results (solver : Solver) (d : RowDict) (combs : List String) :
    Except PyErr Dict := do
  let m := d.materiaux
  let g := d.geometrie
  let r := d.renforts
  let e₁ := d.efforts_1
  let e₂ := d.efforts_2
  let out : Dict := []
  let out ← if "els" ∈ combs then do
      let sls1 ← design_section solver m g r e₁ "sls"
      pure (out ++ [("els1_m1", pyGet sls1 "m1"), ("els1_m2", pyGet sls1 "m2"),
        ("els1_sigma_c1", pyGet sls1 "sigma_c1"), ("els1_sigma_c2", pyGet sls1 "sigma_c2"),
        ("els1_sigma_s1", pyGet sls1 "sigma_s1"), ("els1_sigma_s2", pyGet sls1 "sigma_s2"),
        ("els1_sigma_sr2", pyGet sls1 "sigma_sr2"), ("els1_sigma_f2", pyGet sls1 "sigma_f2")])
    else pure out
  let out ← if "elu" ∈ combs then do
      let uls1 ← design_section solver m g r e₁ "uls"
      pure (out ++ [("elu1_m_ed", pyGet uls1 "m_ed"), ("elu1_m_rd1", pyGet uls1 "m_rd1"),
        ("elu1_m_rd2", pyGet uls1 "m_rd2"), ("elu1_sigma_c", pyGet uls1 "sigma_c"),
        ("elu1_sigma_s", pyGet uls1 "sigma_s"), ("elu1_sigma_sr", pyGet uls1 "sigma_sr"),
        ("elu1_sigma_f", pyGet uls1 "sigma_f")])
    else pure out
  let out ← if "feu" ∈ combs then do
      let feu1 ← design_section solver m g r e₁ "fire"
      pure (out ++ [("feu1_m_ed", pyGet feu1 "m_ed"), ("feu1_m_rd1", pyGet feu1 "m_rd1"),
        ("feu1_m_rd2", pyGet feu1 "m_rd2"), ("feu1_sigma_c", pyGet feu1 "sigma_c"),
        ("feu1_sigma_s", pyGet feu1 "sigma_s"), ("feu1_sigma_sr", pyGet feu1 "sigma_sr"),
        ("feu1_sigma_f", pyGet feu1 "sigma_f")])
    else pure out
  let out ← if "elu" ∈ combs then do
      let r_asr : Dict := [("Asr", pyGetD r "Asr" (pyNum 0)),
        ("dprim_sr", pyGetD r "dprim_sr" (pyNum 0)), ("nsr", pyGetD r "nsr" (pyNum 0)),
        ("Af", pyNum 0), ("dprim_f", pyNum 0), ("nf", pyNum 0)]
      let uls2 ← design_section solver m g r_asr e₂ "uls"
      pure (out ++ [("elu2_m_ed", pyGet uls2 "m_ed"), ("elu2_sigma_c", pyGet uls2 "sigma_c"),
        ("elu2_sigma_s", pyGet uls2 "sigma_s"), ("elu2_m_rd", pyGet uls2 "m_rd2")])
    else pure out
  return out

/-- A Python list comprehension whose body can raise: results in order,
the first exception aborting the whole comprehension. -/
def mapExcept {α β : Type} (g : α → Except PyErr β) : List α → Except PyErr (List β)
  | [] => Except.ok []
  | a :: l => do
    let b ← g a
    let bs ← mapExcept g l
    return b :: bs

/-- Embeds `input_dicos_entree` from src/Citallios.py lines 332-342, with the
spreadsheet read modelled from the spec: the tabular I/O boundary
(external collaborator) supplies the list of raw rows, and each row is
normalized by `_build_input_dict`. -/
def input_dicos_entree (rows : List Row) : List RowDict :=
  rows.map _build_input_dict

/-- Embeds `rows_results` from src/Citallios.py lines 547-565: normalize every
row, then compute each row's result columns in order. -/
def rows_results (solver : Solver) (rows : List Row) (combs : List String) :
    Except PyErr (List Dict) :=
  mapExcept (fun d => row_results solver d combs) (input_dicos_entree rows)

/-- A trivial instance of the solver contract: zero curvature, empty
state maps, zero capacity (a concrete test double). -/
def solverE : Solver :=
  ⟨fun _ _ _ _ => ⟨0, 0, 0⟩, fun _ _ => [], fun _ _ => [], fun _ _ => [], fun _ _ => 0⟩

/-- A solver test double returning constant one-or-two-entry state maps
(every band inhabited). -/
def solverC : Solver :=
  ⟨fun _ _ _ _ => ⟨1, 1, 0⟩,
   fun _ _ => [("f1", [("stress", 5), ("strain", 1)])],
   fun _ _ => [("s1", [("stress", -3)]), ("s101", [("stress", -7)])],
   fun _ _ => [("frp1", [("stress", -2)])],
   fun _ _ => 42⟩

/-- A concrete material dict (modelled on the hand-written case of the
repo). -/
def mat0 : Dict :=
  [("fck", pyNum 25), ("class_acier", pyStr "B"), ("fyk", pyNum 500),
   ("Ef", pyNum 170000), ("sigma_fs", pyNum 1300), ("sigma_fu", pyNum 1445),
   ("carbone_feu", pyNum 1)]

/-- The same material dict with the fire-participation flag absent. -/
def mat_noflag : Dict :=
  [("fck", pyNum 25), ("class_acier", pyStr "B"), ("fyk", pyNum 500),
   ("Ef", pyNum 170000), ("sigma_fs", pyNum 1300), ("sigma_fu", pyNum 1445)]

/-- A concrete geometry dict with simple values. -/
def geo0 : Dict :=
  [("h_dalle", pyNum 1), ("b_dalle", pyNum 2), ("As", pyNum 1),
   ("dprim_s", pyNum 0), ("ns", pyNum 1)]

/-- A reinforcement dict with no added reinforcement at all. -/
def ren0 : Dict :=
  [("Asr", pyNum 0), ("dprim_sr", pyNum 0), ("nsr", pyNum 0),
   ("Af", pyNum 0), ("dprim_f", pyNum 0), ("nf", pyNum 0)]

/-- A reinforcement dict with added steel and added FRP present. -/
def renF : Dict :=
  [("Asr", pyNum 1), ("dprim_sr", pyNum 0), ("nsr", pyNum 1),
   ("Af", pyNum 2), ("dprim_f", pyNum 0), ("nf", pyNum 1)]

/-- A concrete force dict. -/
def eff0 : Dict :=
  [("m_els_1", pyNum 30), ("m_els_2", pyNum 30), ("m_elu", pyNum 80),
   ("m_feu", pyNum 60)]

/-- A complete raw spreadsheet row. -/
def rawGood : Row :=
  [("fck", pyNum 25), ("class_acier", pyStr "B"), ("fyk", pyNum 500),
   ("Ef", pyNum 170000), ("sigma_fs", pyNum 1300), ("sigma_fu", pyNum 1445),
   ("carbone_feu", pyNum 1),
   ("h_dalle", pyNum 1), ("b_dalle", pyNum 2), ("As", pyNum 1),
   ("dprim_s", pyNum 0), ("ns", pyNum 1),
   ("Asr", pyNum 0), ("dprim_sr", pyNum 0), ("nsr", pyNum 0),
   ("Af", pyNum 0), ("dprim_f", pyNum 0), ("nf", pyNum 0),
   ("m_feu_1", pyNum 38)]

/-- A raw row carrying only an identifier column: every required
normalized field is missing. -/
def rawBad : Row := [("ID", pyStr "case-2")]

/-- The synthetic state map of the spec's envelope-correctness test. -/
def exMap : StateMap :=
  [("s1", [("stress", -10)]), ("s2", [("stress", -50)]), ("s101", [("stress", -5)])]

/-- Python truthiness of an exception-throwing computation: did it
return normally? -/
def isOkB {α : Type} : Except PyErr α → Bool
  | Except.ok _ => true
  | Except.error _ => false

example : _to_number (pyStr " 1 200,5 ") = pyNum (2401 / 2) := by decide
example : _to_number (pyStr "NaN") = pyNone := by decide
example : _to_number (pyStr "Aciers B500") = pyStr "Aciers B500" := by decide
example : _to_number (pyNum 12) = pyNum 12 := by decide
example : default_id_extractor "s101" = some 101 := by decide
example :
    envelope [("s1", [("stress", -10)]), ("s2", [("stress", -50)]),
      ("s101", [("stress", -5)])] (some 1) (some 99) "stress" =
    ⟨2, some (-50), some (-10), ["s2"], ["s1"]⟩ := by decide

lemma foldl_min_le_init (xs : List ℚ) (a : ℚ) : xs.foldl Min.min a ≤ a := by
  induction xs generalizing a with
  | nil => simp
  | cons x xs ih => exact le_trans (ih (Min.min a x)) (min_le_left a x)

lemma foldl_min_le_mem (xs : List ℚ) (a x : ℚ) (hx : x ∈ xs) : xs.foldl Min.min a ≤ x := by
  induction xs generalizing a with
  | nil => cases hx
  | cons y ys ih =>
    rcases List.mem_cons.mp hx with h | h
    · subst h
      exact le_trans (foldl_min_le_init ys (Min.min a x)) (min_le_right a x)
    · exact ih (Min.min a y) h

lemma foldl_min_mem (xs : List ℚ) (a : ℚ) :
    xs.foldl Min.min a = a ∨ xs.foldl Min.min a ∈ xs := by
  induction xs generalizing a with
  | nil => exact Or.inl rfl
  | cons y ys ih =>
    rcases ih (Min.min a y) with h | h
    · rcases min_choice a y with h2 | h2
      · exact Or.inl (by rw [List.foldl_cons, h, h2])
      · exact Or.inr (by rw [List.foldl_cons, h, h2]; exact List.mem_cons_self y ys)
    · exact Or.inr (List.mem_cons_of_mem y h)

lemma foldl_max_ge_init (xs : List ℚ) (a : ℚ) : a ≤ xs.foldl Max.max a := by
  induction xs generalizing a with
  | nil => simp
  | cons x xs ih => exact le_trans (le_max_left a x) (ih (Max.max a x))

lemma foldl_max_ge_mem (xs : List ℚ) (a x : ℚ) (hx : x ∈ xs) : x ≤ xs.foldl Max.max a := by
  induction xs generalizing a with
  | nil => cases hx
  | cons y ys ih =>
    rcases List.mem_cons.mp hx with h | h
    · subst h
      exact le_trans (le_max_right a x) (foldl_max_ge_init ys (Max.max a x))
    · exact ih (Max.max a y) h

lemma foldl_max_mem (xs : List ℚ) (a : ℚ) :
    xs.foldl Max.max a = a ∨ xs.foldl Max.max a ∈ xs := by
  induction xs generalizing a with
  | nil => exact Or.inl rfl
  | cons y ys ih =>
    rcases ih (Max.max a y) with h | h
    · rcases max_choice a y with h2 | h2
      · exact Or.inl (by rw [List.foldl_cons, h, h2])
      · exact Or.inr (by rw [List.foldl_cons, h, h2]; exact List.mem_cons_self y ys)
    · exact Or.inr (List.mem_cons_of_mem y h)

lemma envelope_count_eq (d : StateMap) (a b : Option Int) (f : String) :
    (envelope d a b f).count = (envelopeSub d a b f).length := by
  unfold envelope
  cases envelopeSub d a b f with
  | nil => rfl
  | cons kv rest => rfl

lemma envelopeSub_all_length (d : StateMap) (f : String)
    (h : ∀ kv ∈ d, alookup kv.2 f ≠ none) :
    (envelopeSub d none none f).length = d.length := by
  induction d with
  | nil => rfl
  | cons kv rest ih =>
    have hkv := h kv (List.mem_cons_self kv rest)
    rcases hx : alookup kv.2 f with _ | x
    · exact absurd hx hkv
    · have ih' := ih (fun p hp => h p (List.mem_cons_of_mem kv hp))
      have hstep : envelopeSub (kv :: rest) none none f
          = (kv.1, x) :: envelopeSub rest none none f := by
        simp [envelopeSub, List.filterMap_cons, hx]
      rw [hstep, List.length_cons, ih', List.length_cons]

lemma mem_envelopeSub_range (d : StateMap) (f : String) (s e : Int) (k : String) (x : ℚ) :
    (k, x) ∈ envelopeSub d (some s) (some e) f ↔
      ∃ v, (k, v) ∈ d ∧ alookup v f = some x ∧
        ∃ n, default_id_extractor k = some n ∧ s ≤ (n : Int) ∧ (n : Int) ≤ e := by
  unfold envelopeSub
  rw [List.mem_filterMap]
  constructor
  · rintro ⟨⟨k', v⟩, hmem, hg⟩
    rcases hx : alookup v f with _ | x'
    · simp [hx] at hg
    · simp only [hx] at hg
      rcases hn : default_id_extractor k' with _ | n
      · simp [hn] at hg
      · simp only [hn] at hg
        by_cases hc : (decide (s ≤ (n : Int)) && decide ((n : Int) ≤ e)) = true
        · rw [if_pos hc] at hg
          injection hg with h2
          obtain ⟨hk1, hx1⟩ := Prod.mk.inj h2
          subst hk1
          simp only [Bool.and_eq_true, decide_eq_true_eq] at hc
          exact ⟨v, hmem, by rw [hx, hx1], n, hn, hc.1, hc.2⟩
        · rw [if_neg hc] at hg
          cases hg
  · rintro ⟨v, hmem, hx, n, hn, hs, he⟩
    refine ⟨(k, v), hmem, ?_⟩
    simp [hx, hn, hs, he]

/-- C1: on a state map whose values all carry the requested field,
`envelope` with no bounds counts every entry; with bounds it selects
exactly the entries whose key has a trailing-digit suffix inside the
inclusive range (keys without a suffix excluded); the reported min and
max are attained extremes bounding every selected value, with `ids_min`
and `ids_max` listing exactly the keys attaining them; and on the
spec's synthetic three-entry map the two range queries return the two
stated envelopes. -/
theorem envelope_filter_and_extremes (d : StateMap) (f : String) (s e : Int) :
    ((∀ kv ∈ d, alookup kv.2 f ≠ none) →
      (envelope d none none f).count = d.length) ∧
    (∀ k x, (k, x) ∈ envelopeSub d (some s) (some e) f ↔
      ∃ v, (k, v) ∈ d ∧ alookup v f = some x ∧
        ∃ n, default_id_extractor k = some n ∧ s ≤ (n : Int) ∧ (n : Int) ≤ e) ∧
    ((envelope d (some s) (some e) f).count
      = (envelopeSub d (some s) (some e) f).length) ∧
    (∀ kv rest, envelopeSub d (some s) (some e) f = kv :: rest →
      ∃ vmin vmax,
        (envelope d (some s) (some e) f).min = some vmin ∧
        (envelope d (some s) (some e) f).max = some vmax ∧
        (∃ p ∈ kv :: rest, p.2 = vmin) ∧
        (∃ p ∈ kv :: rest, p.2 = vmax) ∧
        (∀ p ∈ kv :: rest, vmin ≤ p.2 ∧ p.2 ≤ vmax) ∧
        (∀ kk, kk ∈ (envelope d (some s) (some e) f).ids_min ↔
          ∃ x, (kk, x) ∈ kv :: rest ∧ x = vmin) ∧
        (∀ kk, kk ∈ (envelope d (some s) (some e) f).ids_max ↔
          ∃ x, (kk, x) ∈ kv :: rest ∧ x = vmax)) ∧
    envelope exMap (some 1) (some 99) "stress"
      = ⟨2, some (-50), some (-10), ["s2"], ["s1"]⟩ ∧
    envelope exMap (some 101) (some 199) "stress"
      = ⟨1, some (-5), some (-5), ["s101"], ["s101"]⟩ := by
  refine ⟨?_, fun k x => mem_envelopeSub_range d f s e k x,
    envelope_count_eq d (some s) (some e) f, ?_, by decide, by decide⟩
  · intro h
    rw [envelope_count_eq, envelopeSub_all_length d f h]
  · intro kv rest h
    refine ⟨(rest.map Prod.snd).foldl Min.min kv.2,
            (rest.map Prod.snd).foldl Max.max kv.2,
            by simp [envelope, h], by simp [envelope, h], ?_, ?_, ?_, ?_, ?_⟩
    · rcases foldl_min_mem (rest.map Prod.snd) kv.2 with hm | hm
      · exact ⟨kv, List.mem_cons_self _ _, hm.symm⟩
      · rcases List.mem_map.mp hm with ⟨p, hp, hpe⟩
        exact ⟨p, List.mem_cons_of_mem _ hp, hpe⟩
    · rcases foldl_max_mem (rest.map Prod.snd) kv.2 with hm | hm
      · exact ⟨kv, List.mem_cons_self _ _, hm.symm⟩
      · rcases List.mem_map.mp hm with ⟨p, hp, hpe⟩
        exact ⟨p, List.mem_cons_of_mem _ hp, hpe⟩
    · intro p hp
      rcases List.mem_cons.mp hp with rfl | hp'
      · exact ⟨foldl_min_le_init _ _, foldl_max_ge_init _ _⟩
      · exact ⟨foldl_min_le_mem _ kv.2 p.2 (List.mem_map_of_mem Prod.snd hp'),
               foldl_max_ge_mem _ kv.2 p.2 (List.mem_map_of_mem Prod.snd hp')⟩
    · intro kk
      constructor
      · intro hkk
        simp only [envelope, h] at hkk
        rcases List.mem_map.mp hkk with ⟨p, hpf, hpe⟩
        rcases List.mem_filter.mp hpf with ⟨hpmem, hdec⟩
        refine ⟨p.2, ?_, of_decide_eq_true hdec⟩
        rw [← hpe, Prod.mk.eta]
        exact hpmem
      · rintro ⟨x, hmem, rfl⟩
        simp only [envelope, h]
        exact List.mem_map.mpr ⟨(kk, _),
          List.mem_filter.mpr ⟨hmem, by simp⟩, rfl⟩
    · intro kk
      constructor
      · intro hkk
        simp only [envelope, h] at hkk
        rcases List.mem_map.mp hkk with ⟨p, hpf, hpe⟩
        rcases List.mem_filter.mp hpf with ⟨hpmem, hdec⟩
        refine ⟨p.2, ?_, of_decide_eq_true hdec⟩
        rw [← hpe, Prod.mk.eta]
        exact hpmem
      · rintro ⟨x, hmem, rfl⟩
        simp only [envelope, h]
        exact List.mem_map.mpr ⟨(kk, _),
          List.mem_filter.mpr ⟨hmem, by simp⟩, rfl⟩

/-- Witness for C1 at the spec's synthetic map: both hypotheses are
discharged concretely. -/
theorem envelope_filter_and_extremes_witness :
    (envelope exMap none none "stress").count = exMap.length ∧
    (∃ vmin vmax,
      (envelope exMap (some 1) (some 99) "stress").min = some vmin ∧
      (envelope exMap (some 1) (some 99) "stress").max = some vmax ∧
      (∃ p ∈ [("s1", (-10 : ℚ)), ("s2", -50)], p.2 = vmin) ∧
      (∃ p ∈ [("s1", (-10 : ℚ)), ("s2", -50)], p.2 = vmax) ∧
      (∀ p ∈ [("s1", (-10 : ℚ)), ("s2", -50)], vmin ≤ p.2 ∧ p.2 ≤ vmax) ∧
      (∀ kk, kk ∈ (envelope exMap (some 1) (some 99) "stress").ids_min ↔
        ∃ x, (kk, x) ∈ [("s1", (-10 : ℚ)), ("s2", -50)] ∧ x = vmin) ∧
      (∀ kk, kk ∈ (envelope exMap (some 1) (some 99) "stress").ids_max ↔
        ∃ x, (kk, x) ∈ [("s1", (-10 : ℚ)), ("s2", -50)] ∧ x = vmax)) := by
  constructor
  · exact (envelope_filter_and_extremes exMap "stress" 1 99).1 (by decide)
  · exact (envelope_filter_and_extremes exMap "stress" 1 99).2.2.2.1
      ("s1", (-10 : ℚ)) [("s2", -50)] (by decide)

/-- C7: whenever no entry survives the filter (in particular on the
empty state map), `envelope` returns the zero-count record with null
extremes and empty id lists, and does not raise. -/
theorem envelope_empty_policy (d : StateMap) (start stop : Option Int) (f : String)
    (h : envelopeSub d start stop f = []) :
    envelope d start stop f = ⟨0, none, none, [], []⟩ := by
  simp [envelope, h]

/-- Witness for C7: the empty map, and a filter matched by nothing. -/
theorem envelope_empty_policy_witness :
    envelope ([] : StateMap) none none "stress" = ⟨0, none, none, [], []⟩ ∧
    envelope exMap (some 300) (some 400) "stress" = ⟨0, none, none, [], []⟩ :=
  ⟨envelope_empty_policy [] none none "stress" (by decide),
   envelope_empty_policy exMap (some 300) (some 400) "stress" (by decide)⟩

/-- C2: `_to_number` maps `None` and null-marker/empty strings to the
absent sentinel, passes numbers through unchanged, parses cleaned
numeric text (spaces and no-break spaces stripped, decimal commas
turned into points) into the number, and returns the original string
unchanged when the parse fails; concretely `" 1 200,5 "` gives 1200.5,
`"NaN"` gives the sentinel, `"Aciers B500"` is returned unchanged and
`12` passes through. -/
theorem to_number_coercion :
    _to_number pyNone = pyNone ∧
    (∀ q, _to_number (pyNum q) = pyNum q) ∧
    (∀ t, (pyStrip t = "" ∨
        strLower (pyStrip t) ∈ (["nan", "none", "null"] : List String)) →
      _to_number (pyStr t) = pyNone) ∧
    (∀ t q, ¬(pyStrip t = "" ∨
        strLower (pyStrip t) ∈ (["nan", "none", "null"] : List String)) →
      pyFloat (strReplace (strReplace (strReplace (pyStrip t) " " "") " " "") "," ".")
        = some q →
      _to_number (pyStr t) = pyNum q) ∧
    (∀ t, ¬(pyStrip t = "" ∨
        strLower (pyStrip t) ∈ (["nan", "none", "null"] : List String)) →
      pyFloat (strReplace (strReplace (strReplace (pyStrip t) " " "") " " "") "," ".")
        = none →
      _to_number (pyStr t) = pyStr t) ∧
    _to_number (pyStr " 1 200,5 ") = pyNum (2401 / 2) ∧
    _to_number (pyStr "NaN") = pyNone ∧
    _to_number (pyStr "Aciers B500") = pyStr "Aciers B500" ∧
    _to_number (pyNum 12) = pyNum 12 := by
  refine ⟨rfl, fun q => rfl, ?_, ?_, ?_, by decide, by decide, by decide, by decide⟩
  · intro t ht
    simp only [_to_number, if_pos ht]
  · intro t q ht hp
    simp only [_to_number, if_neg ht, hp]
  · intro t ht hp
    simp only [_to_number, if_neg ht, hp]

/-- Witness for C2: the conditional cases instantiated at concrete
strings, every hypothesis evaluated. -/
theorem to_number_coercion_witness :
    _to_number (pyStr "  NULL ") = pyNone ∧
    _to_number (pyStr "3,5") = pyNum (7 / 2) ∧
    _to_number (pyStr "N/A") = pyStr "N/A" :=
  ⟨to_number_coercion.2.2.1 "  NULL " (by decide),
   to_number_coercion.2.2.2.1 "3,5" (7 / 2) (by decide) (by decide),
   to_number_coercion.2.2.2.2.1 "N/A" (by decide) (by decide)⟩

@[simp] lemma exc_bind_ok {α β : Type} (a : α) (f : α → Except PyErr β) :
    (Except.ok a : Except PyErr α) >>= f = f a := rfl

@[simp] lemma exc_bind_error {α β : Type} (e : PyErr) (f : α → Except PyErr β) :
    (Except.error e : Except PyErr α) >>= f = Except.error e := rfl

@[simp] lemma exc_pure {α : Type} (a : α) :
    (pure a : Except PyErr α) = Except.ok a := rfl

/-- C9: `design_section` carries no hidden mutable state between calls:
in this embedding (the external engine being a pure function of its
arguments, per the Solver Adapter contract) its result record is a
function of the solver and the five inputs alone, so two runs on
identical normalized input return identical records. -/
theorem design_section_deterministic (solver : Solver)
    (m₁ m₂ g₁ g₂ r₁ r₂ e₁ e₂ : Dict) (c₁ c₂ : String)
    (hm : m₁ = m₂) (hg : g₁ = g₂) (hr : r₁ = r₂) (he : e₁ = e₂) (hc : c₁ = c₂) :
    design_section solver m₁ g₁ r₁ e₁ c₁ = design_section solver m₂ g₂ r₂ e₂ c₂ := by
  rw [hm, hg, hr, he, hc]

/-- Witness for C9: two runs on the same concrete normalized input. -/
theorem design_section_deterministic_witness :
    design_section solverC mat0 geo0 renF eff0 "sls"
      = design_section solverC mat0 geo0 renF eff0 "sls" :=
  design_section_deterministic solverC mat0 mat0 geo0 geo0 renF renF eff0 eff0
    "sls" "sls" rfl rfl rfl rfl rfl

/-- C5 counterexample: with the fire-participation flag column absent,
the fire-regime build does not succeed: it raises the KeyError of
`unpack_materiaux`, refuting the absent-flag clause of the claim. -/
theorem fire_missing_flag_raises_cex :
    def_sections mat_noflag geo0 ren0 "fire"
      = Except.error (PyErr.keyError "carbone_feu") := by
  decide

/-- C5 amended: in a successful fire-regime build with the flag present
and numeric, the FRP material of the strengthened model has modulus
`Ef * max(flag, 1e-9)`: `Ef * 1e-9` (negligible) when the flag is zero
and `Ef * flag` when the flag is at least `1e-9`.  When the flag key is
absent the build raises a KeyError instead of succeeding. -/
theorem fire_frp_modulus (m g r : Dict) (p : ConcreteSection × ConcreteSection)
    (fck cls fyk sfs sfu : PyVal) (ef cf : ℚ)
    (Asrv dsrv nsrv dpfv : PyVal) (af nfq : ℚ)
    (hum : unpack_materiaux m = Except.ok (fck, cls, fyk, pyNum ef, sfs, sfu, pyNum cf))
    (hur : unpack_renforts r = Except.ok (Asrv, dsrv, nsrv, pyNum af, dpfv, pyNum nfq))
    (hpos : af * nfq > 0)
    (hok : def_sections m g r "fire" = Except.ok p) :
    ∃ strip, p.2.frp_strips = [strip] ∧
      strip.material.modulus_elasticity_ef = pyNum (ef * max cf (1 / 1000000000)) ∧
      (cf = 0 → strip.material.modulus_elasticity_ef = pyNum (ef * (1 / 1000000000))) ∧
      (1 / 1000000000 ≤ cf → strip.material.modulus_elasticity_ef = pyNum (ef * cf)) := by
  unfold def_sections at hok
  have hl : strLower "fire" = "fire" := by decide
  rw [hl, hum] at hok
  simp only [exc_bind_ok] at hok
  rcases hug : unpack_geometry g with e | tg
  · rw [hug] at hok; simp at hok
  · rw [hug] at hok
    simp only [exc_bind_ok] at hok
    obtain ⟨hdv, bdv, Asv, dpsv, nsv⟩ := tg
    rw [hur] at hok
    simp only [exc_bind_ok] at hok
    have hmm : make_materials "fire" fck cls fyk (pyNum ef) sfs sfu (pyNum cf)
        = Except.ok (⟨fck, "uls_parabola", some 1⟩,
                     ⟨cls, fyk, some 1, none⟩,
                     ⟨pyNum (ef * max cf (1 / 1000000000)), none, none⟩) := by
      simp [make_materials, pyToQ]
    rw [hmm] at hok
    simp only [exc_bind_ok] at hok
    rcases hmd : make_dalle ⟨fck, "uls_parabola", some 1⟩ ⟨cls, fyk, some 1, none⟩
        hdv bdv Asv dpsv nsv with e | td
    · rw [hmd] at hok; simp at hok
    · rw [hmd] at hok
      simp only [exc_bind_ok] at hok
      obtain ⟨reg, rb, dalle, bq⟩ := td
      rcases hmr : make_rebars_renf ⟨cls, fyk, some 1, none⟩ rb bq Asrv dsrv nsrv
          with e | rebars
      · rw [hmr] at hok; simp at hok
      · rw [hmr] at hok
        simp only [exc_bind_ok] at hok
        rcases hfr : make_frp_renf ⟨pyNum (ef * max cf (1 / 1000000000)), none, none⟩
            bq (pyNum af) dpfv (pyNum nfq) with e | strip
        · rw [hfr] at hok; simp at hok
        · rw [hfr] at hok
          simp only [exc_bind_ok, exc_pure, Except.ok.injEq] at hok
          unfold make_frp_renf at hfr
          simp only [pyToQ, exc_bind_ok, if_pos hpos] at hfr
          cases dpfv with
          | pyNone => simp at hfr
          | pyStr ds => simp at hfr
          | pyPod dp => simp at hfr
          | pyNum dq =>
            simp only [exc_bind_ok] at hfr
            rcases hrg : pyRange nfq with e | idx
            · rw [hrg] at hfr; simp at hfr
            · rw [hrg] at hfr
              simp only [exc_bind_ok, exc_pure, Except.ok.injEq] at hfr
              refine ⟨strip, ?_, ?_, ?_, ?_⟩
              · rw [← hok]
              · rw [← hfr]
              · intro h0
                rw [← hfr, h0, max_eq_right (by norm_num : (0 : ℚ) ≤ 1 / 1000000000)]
              · intro hge
                rw [← hfr, max_eq_left hge]

/-- Witness for C5: the concrete fire build with flag 1 and FRP present
has one strip whose modulus is `Ef * max(1, 1e-9)`. -/
theorem fire_frp_modulus_witness :
    (def_sections mat0 geo0 renF "fire").map
      (fun p => p.2.frp_strips.map (fun st => st.material.modulus_elasticity_ef))
      = Except.ok [pyNum (170000 * max 1 (1 / 1000000000))] := by
  rcases hok : def_sections mat0 geo0 renF "fire" with e | p
  · have hne : isOkB (def_sections mat0 geo0 renF "fire") = true := by decide
    rw [hok] at hne
    simp [isOkB] at hne
  · have hum : unpack_materiaux mat0 = Except.ok (pyNum 25, pyStr "B", pyNum 500,
        pyNum 170000, pyNum 1300, pyNum 1445, pyNum 1) := by decide
    have hur : unpack_renforts renF = Except.ok (pyNum 1, pyNum 0, pyNum 1,
        pyNum 2, pyNum 0, pyNum 1) := by decide
    obtain ⟨strip, hstrips, hmod, _, _⟩ :=
      fire_frp_modulus mat0 geo0 renF p (pyNum 25) (pyStr "B") (pyNum 500)
        (pyNum 1300) (pyNum 1445) 170000 1 (pyNum 1) (pyNum 0) (pyNum 1) (pyNum 0) 2 1
        hum hur (by norm_num) hok
    simp [hok, Except.map, hstrips, hmod, one_div]

/-- C6: when added-FRP area times count is not strictly positive, a
successful strengthened build still carries exactly one FRP group, the
zero-area single-point placeholder (dummy material `1e-9/10000/10000`);
and an FRP envelope query is total and well-defined on every state map:
either the zero-count record with null extremes, or a positive count
with both extremes attained. -/
theorem frp_placeholder_invariant (m g r : Dict) (p : ConcreteSection × ConcreteSection)
    (Asrv dsrv nsrv dpfv : PyVal) (af nf : ℚ) (c : String)
    (hur : unpack_renforts r = Except.ok (Asrv, dsrv, nsrv, pyNum af, dpfv, pyNum nf))
    (hnp : ¬ af * nf > 0)
    (hok : def_sections m g r c = Except.ok p) :
    p.2.frp_strips = [⟨0, pyNum 0,
      ⟨pyNum (1 / 1000000000), some (pyNum 10000), some (pyNum 10000)⟩, [⟨0, 0⟩], 1⟩] ∧
    (∀ dmap : StateMap,
      ((envelope dmap none none "stress").count = 0 ∧
        (envelope dmap none none "stress").min = none ∧
        (envelope dmap none none "stress").max = none) ∨
      (0 < (envelope dmap none none "stress").count ∧
        ∃ a b, (envelope dmap none none "stress").min = some a ∧
          (envelope dmap none none "stress").max = some b)) := by
  unfold def_sections at hok
  rcases hum : unpack_materiaux m with e | tm
  · rw [hum] at hok; simp at hok
  · rw [hum] at hok
    simp only [exc_bind_ok] at hok
    obtain ⟨fckv, clsv, fykv, Efv, sfsv, sfuv, cfv⟩ := tm
    rcases hug : unpack_geometry g with e | tg
    · rw [hug] at hok; simp at hok
    · rw [hug] at hok
      simp only [exc_bind_ok] at hok
      obtain ⟨hdv, bdv, Asv, dpsv, nsv⟩ := tg
      rw [hur] at hok
      simp only [exc_bind_ok] at hok
      rcases hmm : make_materials (strLower c) fckv clsv fykv Efv sfsv sfuv cfv
          with e | tmats
      · rw [hmm] at hok; simp at hok
      · rw [hmm] at hok
        simp only [exc_bind_ok] at hok
        obtain ⟨conc, aci, renf⟩ := tmats
        rcases hmd : make_dalle conc aci hdv bdv Asv dpsv nsv with e | td
        · rw [hmd] at hok; simp at hok
        · rw [hmd] at hok
          simp only [exc_bind_ok] at hok
          obtain ⟨reg, rb, dalle, bq⟩ := td
          rcases hmr : make_rebars_renf aci rb bq Asrv dsrv nsrv with e | rebars
          · rw [hmr] at hok; simp at hok
          · rw [hmr] at hok
            simp only [exc_bind_ok] at hok
            have hfr : make_frp_renf renf bq (pyNum af) dpfv (pyNum nf)
                = Except.ok ⟨0, pyNum 0,
                  ⟨pyNum (1 / 1000000000), some (pyNum 10000), some (pyNum 10000)⟩,
                  [⟨0, 0⟩], 1⟩ := by
              unfold make_frp_renf
              simp only [pyToQ, exc_bind_ok, if_neg hnp, exc_pure]
            rw [hfr] at hok
            simp only [exc_bind_ok, exc_pure, Except.ok.injEq] at hok
            constructor
            · rw [← hok]
            · intro dmap
              rcases hsub : envelopeSub dmap none none "stress" with _ | ⟨kv, rest⟩
              · left
                simp [envelope, hsub]
              · right
                refine ⟨by simp [envelope, hsub], ?_⟩
                exact ⟨(rest.map Prod.snd).foldl Min.min kv.2,
                       (rest.map Prod.snd).foldl Max.max kv.2,
                       by simp [envelope, hsub], by simp [envelope, hsub]⟩

/-- Witness for C6: the concrete no-added-FRP build has exactly the
placeholder group. -/
theorem frp_placeholder_invariant_witness :
    (def_sections mat0 geo0 ren0 "uls").map (fun p => p.2.frp_strips)
      = Except.ok [⟨0, pyNum 0,
        ⟨pyNum (1 / 1000000000), some (pyNum 10000), some (pyNum 10000)⟩, [⟨0, 0⟩], 1⟩] := by
  rcases hok : def_sections mat0 geo0 ren0 "uls" with e | p
  · have hne : isOkB (def_sections mat0 geo0 ren0 "uls") = true := by decide
    rw [hok] at hne
    simp [isOkB] at hne
  · have hur : unpack_renforts ren0
        = Except.ok (pyNum 0, pyNum 0, pyNum 0, pyNum 0, pyNum 0, pyNum 0) := by decide
    obtain ⟨hph, _⟩ := frp_placeholder_invariant mat0 geo0 ren0 p
      (pyNum 0) (pyNum 0) (pyNum 0) (pyNum 0) 0 0 "uls" hur (by norm_num) hok
    simp [Except.map, hph]

/-- C4 counterexample: a service-regime run against a solver returning
empty state maps stores `None` as `sigma_c1` and `sigma_s1` in the
result record while the phase-2 value is coerced to zero: the phase-1
stresses are not passed through `env_val`, refuting the claim that every
stress stored is a number. -/
theorem sls_phase1_null_stress_cex :
    (design_section solverE mat0 geo0 ren0 eff0 "sls").map
      (fun d => (pyGet d "sigma_c1", pyGet d "sigma_s1", pyGet d "sigma_c2"))
      = Except.ok (pyNone, pyNone, pyNum 0) := by decide

/-- C4 amended: in every successful service-regime run the four phase-2
stresses (`sigma_c2`, `sigma_s2`, `sigma_sr2`, `sigma_f2`) are numbers,
coerced through `env_val`; the phase-1 stresses `sigma_c1` and
`sigma_s1` are stored as the raw envelope extremes, and are numbers
provided the phase-1 envelopes are nonempty (otherwise `None` is
stored, as the counterexample shows). -/
theorem sls_stress_numeric (solver : Solver) (m g r e : Dict) (out : Dict)
    (hok : design_section solver m g r e "sls" = Except.ok out) :
    (∃ q, pyGet out "sigma_c2" = pyNum q) ∧
    (∃ q, pyGet out "sigma_s2" = pyNum q) ∧
    (∃ q, pyGet out "sigma_sr2" = pyNum q) ∧
    (∃ q, pyGet out "sigma_f2" = pyNum q) ∧
    ((∀ sec pod,
        envelopeSub (solver.concrete_internal_state sec pod) none none "stress" ≠ [] ∧
        envelopeSub (solver.rebars_internal_state sec pod) (some 1) (some 99) "stress" ≠ []) →
      (∃ q, pyGet out "sigma_c1" = pyNum q) ∧ (∃ q, pyGet out "sigma_s1" = pyNum q)) := by
  unfold design_section at hok
  have hl : strLower "sls" = "sls" := by decide
  rw [hl] at hok
  simp only [exc_pure] at hok
  rcases hds : def_sections m g r "sls" with err | secs
  · rw [hds] at hok; simp at hok
  · rw [hds] at hok
    simp only [exc_bind_ok] at hok
    obtain ⟨s1, s2⟩ := secs
    rcases huf : unpack_forces e with err | tf
    · rw [huf] at hok; simp at hok
    · rw [huf] at hok
      simp only [exc_bind_ok] at hok
      obtain ⟨m1v, m2v, mev, mfv⟩ := tf
      simp only [if_true] at hok
      rcases hq1 : pyToQ m1v with err | m1q
      · rw [hq1] at hok; simp at hok
      · rw [hq1] at hok
        simp only [exc_bind_ok] at hok
        rcases hq2 : pyToQ m2v with err | m2q
        · rw [hq2] at hok; simp at hok
        · rw [hq2] at hok
          simp only [exc_bind_ok, exc_pure, Except.ok.injEq] at hok
          subst hok
          refine ⟨⟨_, rfl⟩, ⟨_, rfl⟩, ⟨_, rfl⟩, ⟨_, rfl⟩, ?_⟩
          intro hne
          obtain ⟨h1, h2⟩ :=
            hne s1 (solver.from_forces_to_curvature s1 0 m1q 0)
          constructor
          · rcases l : envelopeSub
                (solver.concrete_internal_state s1
                  (solver.from_forces_to_curvature s1 0 m1q 0)) none none "stress"
                with _ | ⟨kv, rest⟩
            · exact absurd l h1
            · refine ⟨(rest.map Prod.snd).foldl Max.max kv.2, ?_⟩
              have hred : pyGet
                  [("m1", m1v), ("m2", m2v),
                   ("sigma_c1", optPy (envelope
                     (solver.concrete_internal_state s1
                       (solver.from_forces_to_curvature s1 0 m1q 0)) none none "stress").max),
                   ("sigma_c2", pyNum (env_val (envelope
                     (solver.concrete_internal_state s2
                       (solver.from_forces_to_curvature s2 0 m2q 0)) none none "stress").max 0)),
                   ("sigma_s1", optPy (envelope
                     (solver.rebars_internal_state s1
                       (solver.from_forces_to_curvature s1 0 m1q 0)) (some 1) (some 99) "stress").min),
                   ("sigma_s2", pyNum (env_val (envelope
                     (solver.rebars_internal_state s2
                       (solver.from_forces_to_curvature s2 0 m2q 0)) (some 1) (some 99) "stress").min 0)),
                   ("sigma_sr2", pyNum (env_val (envelope
                     (solver.rebars_internal_state s2
                       (solver.from_forces_to_curvature s2 0 m2q 0)) (some 101) (some 199) "stress").min 0)),
                   ("sigma_f2", pyNum (env_val (envelope
                     (solver.frp_internal_state s2
                       (solver.from_forces_to_curvature s2 0 m2q 0)) none none "stress").min 0)),
                   ("pod_1", pyPod (solver.from_forces_to_curvature s1 0 m1q 0)),
                   ("pod_2", pyPod (solver.from_forces_to_curvature s2 0 m2q 0))]
                  "sigma_c1"
                  = optPy (envelope
                      (solver.concrete_internal_state s1
                        (solver.from_forces_to_curvature s1 0 m1q 0)) none none "stress").max := rfl
              rw [hred]
              simp [envelope, l, optPy]
          · rcases l : envelopeSub
                (solver.rebars_internal_state s1
                  (solver.from_forces_to_curvature s1 0 m1q 0)) (some 1) (some 99) "stress"
                with _ | ⟨kv, rest⟩
            · exact absurd l h2
            · refine ⟨(rest.map Prod.snd).foldl Min.min kv.2, ?_⟩
              have hred : pyGet
                  [("m1", m1v), ("m2", m2v),
                   ("sigma_c1", optPy (envelope
                     (solver.concrete_internal_state s1
                       (solver.from_forces_to_curvature s1 0 m1q 0)) none none "stress").max),
                   ("sigma_c2", pyNum (env_val (envelope
                     (solver.concrete_internal_state s2
                       (solver.from_forces_to_curvature s2 0 m2q 0)) none none "stress").max 0)),
                   ("sigma_s1", optPy (envelope
                     (solver.rebars_internal_state s1
                       (solver.from_forces_to_curvature s1 0 m1q 0)) (some 1) (some 99) "stress").min),
                   ("sigma_s2", pyNum (env_val (envelope
                     (solver.rebars_internal_state s2
                       (solver.from_forces_to_curvature s2 0 m2q 0)) (some 1) (some 99) "stress").min 0)),
                   ("sigma_sr2", pyNum (env_val (envelope
                     (solver.rebars_internal_state s2
                       (solver.from_forces_to_curvature s2 0 m2q 0)) (some 101) (some 199) "stress").min 0)),
                   ("sigma_f2", pyNum (env_val (envelope
                     (solver.frp_internal_state s2
                       (solver.from_forces_to_curvature s2 0 m2q 0)) none none "stress").min 0)),
                   ("pod_1", pyPod (solver.from_forces_to_curvature s1 0 m1q 0)),
                   ("pod_2", pyPod (solver.from_forces_to_curvature s2 0 m2q 0))]
                  "sigma_s1"
                  = optPy (envelope
                      (solver.rebars_internal_state s1
                        (solver.from_forces_to_curvature s1 0 m1q 0)) (some 1) (some 99) "stress").min := rfl
              rw [hred]
              simp [envelope, l, optPy]

/-- Witness for C4: the run against the constant nonempty-state solver
has every stress numeric. -/
theorem sls_stress_numeric_witness :
    (∃ out, design_section solverC mat0 geo0 renF eff0 "sls" = Except.ok out ∧
      (∃ q, pyGet out "sigma_c2" = pyNum q) ∧
      (∃ q, pyGet out "sigma_c1" = pyNum q) ∧
      (∃ q, pyGet out "sigma_s1" = pyNum q)) := by
  rcases hok : design_section solverC mat0 geo0 renF eff0 "sls" with e | out
  · have hne : isOkB (design_section solverC mat0 geo0 renF eff0 "sls") = true := by decide
    rw [hok] at hne
    simp [isOkB] at hne
  · obtain ⟨hc2, _, _, _, hph1⟩ := sls_stress_numeric solverC mat0 geo0 renF eff0 out hok
    obtain ⟨hc1, hs1⟩ := hph1 (fun sec pod =>
      ⟨(by decide : envelopeSub [("f1", [("stress", (5 : ℚ)), ("strain", 1)])]
          none none "stress" ≠ []),
       (by decide : envelopeSub [("s1", [("stress", (-3 : ℚ))]), ("s101", [("stress", -7)])]
          (some 1) (some 99) "stress" ≠ [])⟩)
    exact ⟨out, rfl, hc2, hc1, hs1⟩

lemma def_sections_fst_eq (m g r₁ r₂ : Dict) (c : String)
    (p₁ p₂ : ConcreteSection × ConcreteSection)
    (h₁ : def_sections m g r₁ c = Except.ok p₁)
    (h₂ : def_sections m g r₂ c = Except.ok p₂) : p₁.1 = p₂.1 := by
  unfold def_sections at h₁ h₂
  rcases hum : unpack_materiaux m with e | tm
  · rw [hum] at h₁; simp at h₁
  · rw [hum] at h₁ h₂
    simp only [exc_bind_ok] at h₁ h₂
    obtain ⟨fckv, clsv, fykv, Efv, sfsv, sfuv, cfv⟩ := tm
    rcases hug : unpack_geometry g with e | tg
    · rw [hug] at h₁; simp at h₁
    · rw [hug] at h₁ h₂
      simp only [exc_bind_ok] at h₁ h₂
      obtain ⟨hdv, bdv, Asv, dpsv, nsv⟩ := tg
      rcases hr1 : unpack_renforts r₁ with e | tr₁
      · rw [hr1] at h₁; simp at h₁
      · rcases hr2 : unpack_renforts r₂ with e | tr₂
        · rw [hr2] at h₂; simp at h₂
        · rw [hr1] at h₁
          rw [hr2] at h₂
          simp only [exc_bind_ok] at h₁ h₂
          obtain ⟨a₁, b₁, c₁, d₁, e₁, f₁⟩ := tr₁
          obtain ⟨a₂, b₂, c₂, d₂, e₂, f₂⟩ := tr₂
          rcases hmm : make_materials (strLower c) fckv clsv fykv Efv sfsv sfuv cfv
              with e | tmats
          · rw [hmm] at h₁; simp at h₁
          · rw [hmm] at h₁ h₂
            simp only [exc_bind_ok] at h₁ h₂
            obtain ⟨conc, aci, renf⟩ := tmats
            rcases hmd : make_dalle conc aci hdv bdv Asv dpsv nsv with e | td
            · rw [hmd] at h₁; simp at h₁
            · rw [hmd] at h₁ h₂
              simp only [exc_bind_ok] at h₁ h₂
              obtain ⟨reg, rb, dalle, bq⟩ := td
              rcases hmr1 : make_rebars_renf aci rb bq a₁ b₁ c₁ with e | rebars₁
              · rw [hmr1] at h₁; simp at h₁
              · rcases hmr2 : make_rebars_renf aci rb bq a₂ b₂ c₂ with e | rebars₂
                · rw [hmr2] at h₂; simp at h₂
                · rw [hmr1] at h₁
                  rw [hmr2] at h₂
                  simp only [exc_bind_ok] at h₁ h₂
                  rcases hf1 : make_frp_renf renf bq d₁ e₁ f₁ with e | F₁
                  · rw [hf1] at h₁; simp at h₁
                  · rcases hf2 : make_frp_renf renf bq d₂ e₂ f₂ with e | F₂
                    · rw [hf2] at h₂; simp at h₂
                    · rw [hf1] at h₁
                      rw [hf2] at h₂
                      simp only [exc_bind_ok, exc_pure, Except.ok.injEq] at h₁ h₂
                      rw [← h₁, ← h₂]

/-- C10: the added-reinforcement parameters influence only the
strengthened model: for fixed materials, geometry, forces and regime,
two successful builds with different reinforcement dicts agree on the
baseline section, hence on the baseline capacity `m_rd1` of an ultimate
run and on the phase-1 stresses `sigma_c1`, `sigma_s1` (and `pod_1`)
of a service run. -/
theorem baseline_independent_of_renforts (solver : Solver) (m g r₁ r₂ e : Dict) :
    (∀ p₁ p₂ c, def_sections m g r₁ c = Except.ok p₁ →
      def_sections m g r₂ c = Except.ok p₂ → p₁.1 = p₂.1) ∧
    (∀ d₁ d₂, design_section solver m g r₁ e "uls" = Except.ok d₁ →
      design_section solver m g r₂ e "uls" = Except.ok d₂ →
      pyGet d₁ "m_rd1" = pyGet d₂ "m_rd1") ∧
    (∀ d₁ d₂, design_section solver m g r₁ e "sls" = Except.ok d₁ →
      design_section solver m g r₂ e "sls" = Except.ok d₂ →
      pyGet d₁ "sigma_c1" = pyGet d₂ "sigma_c1" ∧
      pyGet d₁ "sigma_s1" = pyGet d₂ "sigma_s1" ∧
      pyGet d₁ "pod_1" = pyGet d₂ "pod_1") := by
  refine ⟨fun p₁ p₂ c => def_sections_fst_eq m g r₁ r₂ c p₁ p₂, ?_, ?_⟩
  · intro d₁ d₂ h₁ h₂
    unfold design_section at h₁ h₂
    have hl : strLower "uls" = "uls" := by decide
    rw [hl] at h₁ h₂
    simp only [exc_pure] at h₁ h₂
    rcases hd1 : def_sections m g r₁ "uls" with err | q₁
    · rw [hd1] at h₁; simp at h₁
    · rcases hd2 : def_sections m g r₂ "uls" with err | q₂
      · rw [hd2] at h₂; simp at h₂
      · have hfst := def_sections_fst_eq m g r₁ r₂ "uls" q₁ q₂ hd1 hd2
        rw [hd1] at h₁
        rw [hd2] at h₂
        simp only [exc_bind_ok] at h₁ h₂
        obtain ⟨s1a, s2a⟩ := q₁
        obtain ⟨s1b, s2b⟩ := q₂
        rcases huf : unpack_forces e with err | tf
        · rw [huf] at h₁; simp at h₁
        · rw [huf] at h₁ h₂
          simp only [exc_bind_ok] at h₁ h₂
          obtain ⟨m1v, m2v, mev, mfv⟩ := tf
          rw [if_neg (by decide : ¬("uls" : String) = "sls")] at h₁ h₂
          simp only [if_true] at h₁ h₂
          rcases hqe : pyToQ mev with err | meq
          · rw [hqe] at h₁; simp at h₁
          · rw [hqe] at h₁ h₂
            simp only [exc_bind_ok, exc_pure, Except.ok.injEq] at h₁ h₂
            subst h₁
            subst h₂
            show pyNum (solver.Mrd_max s1a 0) = pyNum (solver.Mrd_max s1b 0)
            rw [show s1a = s1b from hfst]
  · intro d₁ d₂ h₁ h₂
    unfold design_section at h₁ h₂
    have hl : strLower "sls" = "sls" := by decide
    rw [hl] at h₁ h₂
    simp only [exc_pure] at h₁ h₂
    rcases hd1 : def_sections m g r₁ "sls" with err | q₁
    · rw [hd1] at h₁; simp at h₁
    · rcases hd2 : def_sections m g r₂ "sls" with err | q₂
      · rw [hd2] at h₂; simp at h₂
      · have hfst := def_sections_fst_eq m g r₁ r₂ "sls" q₁ q₂ hd1 hd2
        rw [hd1] at h₁
        rw [hd2] at h₂
        simp only [exc_bind_ok] at h₁ h₂
        obtain ⟨s1a, s2a⟩ := q₁
        obtain ⟨s1b, s2b⟩ := q₂
        rcases huf : unpack_forces e with err | tf
        · rw [huf] at h₁; simp at h₁
        · rw [huf] at h₁ h₂
          simp only [exc_bind_ok] at h₁ h₂
          obtain ⟨m1v, m2v, mev, mfv⟩ := tf
          simp only [if_true] at h₁ h₂
          rcases hq1 : pyToQ m1v with err | m1q
          · rw [hq1] at h₁; simp at h₁
          · rw [hq1] at h₁ h₂
            simp only [exc_bind_ok] at h₁ h₂
            rcases hq2 : pyToQ m2v with err | m2q
            · rw [hq2] at h₁; simp at h₁
            · rw [hq2] at h₁ h₂
              simp only [exc_bind_ok, exc_pure, Except.ok.injEq] at h₁ h₂
              subst h₁
              subst h₂
              refine ⟨?_, ?_, ?_⟩
              · show optPy (envelope (solver.concrete_internal_state s1a
                    (solver.from_forces_to_curvature s1a 0 m1q 0)) none none "stress").max
                  = optPy (envelope (solver.concrete_internal_state s1b
                    (solver.from_forces_to_curvature s1b 0 m1q 0)) none none "stress").max
                rw [show s1a = s1b from hfst]
              · show optPy (envelope (solver.rebars_internal_state s1a
                    (solver.from_forces_to_curvature s1a 0 m1q 0)) (some 1) (some 99) "stress").min
                  = optPy (envelope (solver.rebars_internal_state s1b
                    (solver.from_forces_to_curvature s1b 0 m1q 0)) (some 1) (some 99) "stress").min
                rw [show s1a = s1b from hfst]
              · show pyPod (solver.from_forces_to_curvature s1a 0 m1q 0)
                  = pyPod (solver.from_forces_to_curvature s1b 0 m1q 0)
                rw [show s1a = s1b from hfst]

/-- Witness for C10: the no-added-reinforcement and the fully-reinforced
concrete builds return the same baseline section. -/
theorem baseline_independent_of_renforts_witness :
    (def_sections mat0 geo0 ren0 "uls").map (fun p => p.1)
      = (def_sections mat0 geo0 renF "uls").map (fun p => p.1) := by
  rcases h1 : def_sections mat0 geo0 ren0 "uls" with e | p₁
  · have hne : isOkB (def_sections mat0 geo0 ren0 "uls") = true := by decide
    rw [h1] at hne
    simp [isOkB] at hne
  · rcases h2 : def_sections mat0 geo0 renF "uls" with e | p₂
    · have hne : isOkB (def_sections mat0 geo0 renF "uls") = true := by decide
      rw [h2] at hne
      simp [isOkB] at hne
    · have hfst := (baseline_independent_of_renforts solverE mat0 geo0 ren0 renF eff0).1
        p₁ p₂ "uls" h1 h2
      simp [Except.map, hfst]

lemma mapExcept_ok_forall {α β : Type} (g : α → Except PyErr β) (l : List α)
    (out : List β) (h : mapExcept g l = Except.ok out) :
    ∀ a ∈ l, ∃ b, g a = Except.ok b := by
  induction l generalizing out with
  | nil => intro a ha; cases ha
  | cons x xs ih =>
    intro a ha
    unfold mapExcept at h
    rcases hx : g x with e | b
    · rw [hx] at h; simp at h
    · rw [hx] at h
      simp only [exc_bind_ok] at h
      rcases hxs : mapExcept g xs with e | bs
      · rw [hxs] at h; simp at h
      · rw [hxs] at h
        rcases List.mem_cons.mp ha with rfl | ha'
        · exact ⟨b, hx⟩
        · exact ih bs hxs a ha'

lemma mapExcept_ok_length {α β : Type} (g : α → Except PyErr β) (l : List α)
    (out : List β) (h : mapExcept g l = Except.ok out) : out.length = l.length := by
  induction l generalizing out with
  | nil =>
    unfold mapExcept at h
    simp only [Except.ok.injEq] at h
    subst h
    rfl
  | cons x xs ih =>
    unfold mapExcept at h
    rcases hx : g x with e | b
    · rw [hx] at h; simp at h
    · rw [hx] at h
      simp only [exc_bind_ok] at h
      rcases hxs : mapExcept g xs with e | bs
      · rw [hxs] at h; simp at h
      · rw [hxs] at h
        simp only [exc_bind_ok, exc_pure, Except.ok.injEq] at h
        subst h
        rw [List.length_cons, List.length_cons, ih bs hxs]

lemma mapExcept_ok_get {α β : Type} (g : α → Except PyErr β) (l : List α)
    (out : List β) (h : mapExcept g l = Except.ok out) :
    ∀ i (hi : i < out.length) (hl : i < l.length), g l[i] = Except.ok out[i] := by
  induction l generalizing out with
  | nil => intro i hi hl; simp at hl
  | cons x xs ih =>
    unfold mapExcept at h
    rcases hx : g x with e | b
    · rw [hx] at h; simp at h
    · rw [hx] at h
      simp only [exc_bind_ok] at h
      rcases hxs : mapExcept g xs with e | bs
      · rw [hxs] at h; simp at h
      · rw [hxs] at h
        simp only [exc_bind_ok, exc_pure, Except.ok.injEq] at h
        subst h
        intro i hi hl
        cases i with
        | zero => simpa using hx
        | succ j =>
          have := ih bs hxs j (by simpa using hi) (by simpa using hl)
          simpa using this

/-- C3 counterexample: a batch of one sound row followed by one row
missing every required field does not isolate the failure: the whole
run aborts with the KeyError of the second row and no output list is
produced, refuting the one-entry-per-row claim. -/
theorem batch_abort_on_config_error_cex :
    rows_results solverE [rawGood, rawBad] ["feu"]
      = Except.error (PyErr.keyError "fck") := by decide

/-- C3 amended: a configuration error in any row is fatal for the whole
batch: the exception propagates out of `row_results` through
`rows_results`, which then produces no output list at all (rows are not
isolated and no per-row failure marker exists). -/
theorem batch_config_error_propagates (solver : Solver) (rows : List Row)
    (combs : List String) (row : Row) (err : PyErr)
    (hmem : row ∈ rows)
    (hfail : row_results solver (_build_input_dict row) combs = Except.error err) :
    ¬ ∃ out, rows_results solver rows combs = Except.ok out := by
  rintro ⟨out, hout⟩
  unfold rows_results input_dicos_entree at hout
  obtain ⟨b, hb⟩ := mapExcept_ok_forall _ _ out hout (_build_input_dict row)
    (List.mem_map_of_mem _build_input_dict hmem)
  rw [hfail] at hb
  cases hb

/-- Witness for C3 (amended): the two-row batch with a broken second
row returns no output list. -/
theorem batch_config_error_propagates_witness :
    ¬ ∃ out, rows_results solverE [rawGood, rawBad] ["feu"] = Except.ok out :=
  batch_config_error_propagates solverE [rawGood, rawBad] ["feu"] rawBad
    (PyErr.keyError "fck") (by decide) (by decide)

/-- C8 counterexample: one input row that raises a configuration error
yields zero output records, not one: the batch aborts with the
exception, refuting the exactly-N-outputs claim as universally stated. -/
theorem batch_not_n_outputs_cex :
    rows_results solverE [rawBad] ["els"]
      = Except.error (PyErr.keyError "fck") := by decide

/-- C8 amended: when every row computes without error, the batch output
has exactly one record per input row, in order, and record `i` is the
`row_results` image of input row `i` alone. -/
theorem batch_positional_on_success (solver : Solver) (rows : List Row)
    (combs : List String) (out : List Dict)
    (h : rows_results solver rows combs = Except.ok out) :
    out.length = rows.length ∧
    ∀ i (hi : i < out.length) (hr : i < rows.length),
      row_results solver (_build_input_dict rows[i]) combs = Except.ok out[i] := by
  unfold rows_results input_dicos_entree at h
  have hlen := mapExcept_ok_length _ _ _ h
  rw [List.length_map] at hlen
  refine ⟨hlen, ?_⟩
  intro i hi hr
  have hg := mapExcept_ok_get _ _ _ h i hi (by simpa using hr)
  rw [List.getElem_map] at hg
  exact hg

/-- Witness for C8 (amended): a one-row batch that succeeds has exactly
one output record. -/
theorem batch_positional_on_success_witness :
    (rows_results solverE [rawGood] ["els"]).map (fun out => out.length)
      = Except.ok 1 := by
  rcases h : rows_results solverE [rawGood] ["els"] with e | out
  · have hne : isOkB (rows_results solverE [rawGood] ["els"]) = true := by decide
    rw [h] at hne
    simp [isOkB] at hne
  · have hlen := (batch_positional_on_success solverE [rawGood] ["els"] out h).1
    simp [Except.map, hlen]
